import Mathlib

/-!
Shallow embedding of `src/stock_data_collector.py` (class `StockDataCollector`)
from the magicSplitGPT repository, together with theorems settling the frozen
claims about its specification.

Browser state that the Python code only observes (DOM lookups, script results,
CDP calls, file writes) is modelled by explicit environment structures: each
field records the outcome the browser would hand back at the corresponding
call site.  Exceptions raised by a browser primitive are modelled as the
`none` / `false` outcome of that field; every `try/except` of the source is
mirrored by the branch structure of the Lean definition.  Timestamps produced
by `datetime.now().strftime(...)` are passed in as an abstract string
parameter `ts`.  Writes of image files are accumulated in an explicit list of
`(path, Shot)` pairs.
-/

namespace MagicSplit

/-- The kind of image a capture primitive produces:
`Page.captureScreenshot` over the full layout (`cdpFull`),
`driver.save_screenshot` of the current viewport (`viewport`),
or `element.screenshot` of one element's bounding region (`elementRegion`). -/
inductive Shot
  | cdpFull
  | viewport
  | elementRegion
  deriving DecidableEq, Repr

/-- Python exception classes relevant to the collector. -/
inductive PyErr
  | attributeError
  | osError
  | webDriverError
  | timeoutErr
  deriving DecidableEq, Repr

/-- The two config fields of `config.screenshot` the collector reads
(`ScreenshotConfig` in `src/config.py`): `save_path` and `format`. -/
structure ScreenshotConfig where
  save_path : String
  format : String
  deriving DecidableEq, Repr

/-- Python `str.strip()`: drop leading and trailing whitespace.  Written over
the character list so that it evaluates by reduction. -/
def pyStrip (s : String) : String :=
  ⟨((s.data.dropWhile Char.isWhitespace).reverse.dropWhile Char.isWhitespace).reverse⟩

/-- Python `str.replace(',', '')`: drop every comma. -/
def stripCommas (s : String) : String :=
  ⟨s.data.filter (fun c => ! (c == ','))⟩

/-- Python `':' in title`. -/
def hasColon (s : String) : Bool :=
  s.data.contains ':'

/-- Python `title.split(':')[0]`: the characters before the first colon. -/
def beforeColon (s : String) : String :=
  ⟨s.data.takeWhile (fun c => ! (c == ':'))⟩

/-- Python `text.startswith(marker)`. -/
def pyStartsWith (marker s : String) : Bool :=
  marker.data.isPrefixOf s.data

/-- Python `sep.join(items)`. -/
def pyJoin (sep : String) : List String → String
  | [] => ""
  | [x] => x
  | x :: y :: rest => x ++ sep ++ pyJoin sep (y :: rest)

/-- Python `dict` assignment `d[k] = v`: replace in place when the key is
present (insertion order is kept), append otherwise. -/
def dictSet : List (String × String) → String → String → List (String × String)
  | [], k, v => [(k, v)]
  | (k0, v0) :: rest, k, v =>
      if k0 = k then (k0, v) :: rest else (k0, v0) :: dictSet rest k v

/-- Python `d.get(k)` on a string dict: the value at the first matching key. -/
def dictGet : List (String × String) → String → Option String
  | [], _ => none
  | (k0, v0) :: rest, k => if k0 = k then some v0 else dictGet rest k

/-- Python `d.get(k, dflt)`. -/
def dictGetD (d : List (String × String)) (k dflt : String) : String :=
  (dictGet d k).getD dflt

/-! ## `_take_full_page_screenshot_cdp` -/

/-- Outcomes of the three browser calls inside `_take_full_page_screenshot_cdp`:
`Page.getLayoutMetrics`, `Page.captureScreenshot`, and the binary file write.
`false` means the call raised. -/
structure CdpEnv where
  layoutMetricsOk : Bool
  captureOk : Bool
  writeOk : Bool
  deriving DecidableEq, Repr

/-- `_take_full_page_screenshot_cdp(filepath)`: runs the CDP layout-metrics
query, the clipped full-height capture, and the file write inside one
`try/except`; any raise is caught and `False` is returned.  Result: the
returned success flag plus the files written. -/
def takeFullPageScreenshotCdp (env : CdpEnv) (filepath : String) :
    Bool × List (String × Shot) :=
  if env.layoutMetricsOk then
    if env.captureOk then
      if env.writeOk then (true, [(filepath, Shot.cdpFull)]) else (false, [])
    else (false, [])
  else (false, [])

/-! ## `_navigate_to_stock` -/

/-- Outcome of one `wait.until(presence_of_element_located(sel))` probe:
the element appeared, the wait raised `TimeoutException` (caught inside the
loop, `continue`), or it raised some other exception (escapes the loop to the
outer handlers). -/
inductive SelWait
  | found
  | timeoutHit
  | errored
  deriving DecidableEq, Repr

/-- The readiness-selector candidates `_navigate_to_stock` polls, most
specific first, `body` as the universal fallback. -/
def readinessSelectors : List (String × String) :=
  [("class name", "chart_area"), ("id", "chart"), ("class name", "graph_wrap"),
   ("class name", "today"), ("tag name", "body")]

/-- Environment of `_navigate_to_stock`: whether `driver.get` succeeded, and
the outcome of each readiness probe, listed in the order of
`readinessSelectors`. -/
structure NavEnv where
  getOk : Bool
  ready : List SelWait
  deriving DecidableEq, Repr

/-- The `for by, selector in selectors_to_try` loop: `.ok loaded` when the
loop finishes normally (`loaded` says whether some selector appeared),
`.error ()` when a probe raised a non-timeout exception. -/
def navLoop : List SelWait → Except Unit Bool
  | [] => Except.ok false
  | SelWait.found :: _ => Except.ok true
  | SelWait.timeoutHit :: rest => navLoop rest
  | SelWait.errored :: _ => Except.error ()

/-- `_navigate_to_stock`: `driver.get`, then the readiness loop.  When no
selector appeared the code only logs a warning and still returns `True`; it
returns `False` exactly when `driver.get` raised or a probe raised a
non-timeout exception (both caught by the outer handlers). -/
def navigateToStock (env : NavEnv) : Bool :=
  if env.getOk then
    match navLoop env.ready with
    | Except.error _ => false
    | Except.ok _ => true
  else false

/-! ## `_get_basic_info` -/

/-- The overview-page DOM as `_get_basic_info` observes it.  `none` for a
single-element lookup means `find_element` raised `NoSuchElementException`;
`find_elements` lookups yield a (possibly empty) list and never raise. -/
structure OverviewDom where
  stockNameElem : Option String
  stockCodeElem : Option String
  currentPriceElem : Option String
  exdayElems : List String
  summaryLink : Bool
  summaryClickOk : Bool
  summaryInfoPs : List String
  closeBtn : Bool
  pageTitle : Option String
  deriving DecidableEq, Repr

/-- The `except` handler's last-resort stock name: the page title up to the
first colon, else the literal placeholder; a bare `except` around the title
access maps a raising `driver.title` to the placeholder too. -/
def titleFallback (dom : OverviewDom) : String :=
  match dom.pageTitle with
  | none => "정보 없음"
  | some t =>
      if hasColon t then pyStrip (beforeColon t) else "정보 없음"

/-- The inner `try` collecting the company description: click the summary
link, join the non-empty paragraphs not starting with the source marker, then
close the popup; any raise in this block (including the close-button lookup,
which overwrites the already-joined text) degrades to the placeholder. -/
def companyDescription (dom : OverviewDom) : String :=
  if dom.summaryLink ∧ dom.summaryClickOk then
    let texts := dom.summaryInfoPs.filterMap fun p =>
      let t := pyStrip p
      if t ≠ "" ∧ ¬ pyStartsWith "출처" t then some t else none
    if dom.closeBtn then pyJoin " " texts else "정보 없음"
  else "정보 없음"

/-- `_get_basic_info`: one guarded block looks up stock name, stock code,
current price and the change pair in sequence; the first failing
`find_element` aborts the remaining lookups and the handler overwrites
`stock_name` with the title fallback.  Only the change-pair lookup
(`find_elements` plus a length guard) and the company-description block are
independent of the rest. -/
def getBasicInfo (dom : OverviewDom) : List (String × String) :=
  match dom.stockNameElem with
  | none => dictSet [] "stock_name" (titleFallback dom)
  | some nameTxt =>
    let d1 := dictSet [] "stock_name" (pyStrip nameTxt)
    match dom.stockCodeElem with
    | none => dictSet d1 "stock_name" (titleFallback dom)
    | some codeTxt =>
      let d2 := dictSet d1 "stock_code" (pyStrip codeTxt)
      match dom.currentPriceElem with
      | none => dictSet d2 "stock_name" (titleFallback dom)
      | some priceTxt =>
        let d3 := dictSet d2 "current_price" (stripCommas (pyStrip priceTxt))
        let d4 :=
          if 2 ≤ dom.exdayElems.length then
            let pc := stripCommas (pyStrip (dom.exdayElems.getD 0 ""))
            let cr := pyStrip (dom.exdayElems.getD 1 "")
            dictSet (dictSet d3 "price_change" pc) "change_rate" cr
          else d3
        dictSet d4 "company_description" (companyDescription dom)

/-! ## `_get_news_announcements` -/

/-- One element of the news listing (`.tb_cont, .newsList li`): the anchor
child (its `title` attribute, which `get_attribute` may report as `None`, and
its text), the date element, and the press element; `none` means the nested
`find_element` raised and the item is skipped by the per-item handler. -/
structure NewsItemElem where
  aElem : Option (Option String × String)
  dateText : Option String
  pressText : Option String
  deriving DecidableEq, Repr

/-- One news record as the collector stores it. -/
structure NewsRec where
  title : String
  date : String
  source : String
  index : Nat
  deriving DecidableEq, Repr, Inhabited

/-- Parsing one news element: `get_attribute("title") or text.strip()` picks
the attribute when it is a non-empty string, then the date and press texts;
a missing anchor, date, or press element skips the whole item. -/
def parseNewsElem (e : NewsItemElem) : Option (String × String × String) :=
  match e.aElem with
  | none => none
  | some (attr, txt) =>
    let title :=
      match attr with
      | some a => if a = "" then pyStrip txt else a
      | none => pyStrip txt
    match e.dateText, e.pressText with
    | some d, some p => some (title, pyStrip d, pyStrip p)
    | _, _ => none

/-- The `for idx, news_item in enumerate(news_items[:20])` loop body: parse
failures are skipped but still consume the index; `index` is `idx + 1`. -/
def extractNewsLoop : Nat → List NewsItemElem → List NewsRec
  | _, [] => []
  | idx, e :: rest =>
    match parseNewsElem e with
    | none => extractNewsLoop (idx + 1) rest
    | some t =>
        { title := t.1, date := t.2.1, source := t.2.2, index := idx + 1 } ::
          extractNewsLoop (idx + 1) rest

/-- The news-list extraction over at most the first 20 listed elements. -/
def extractNewsItems (items : List NewsItemElem) : List NewsRec :=
  extractNewsLoop 0 (items.take 20)

/-- Environment of `_get_news_announcements`: `driver.get`, the scroll-to-top
script, the CDP capture primitives, the viewport fallback
`driver.save_screenshot`, and the listed news elements. -/
structure NewsPageEnv where
  getOk : Bool
  scrollOk : Bool
  cdp : CdpEnv
  viewportShotOk : Bool
  items : List NewsItemElem
  deriving DecidableEq, Repr

/-- Target path of the news-page capture. -/
def newsFilePath (dir code ts fmt : String) : String :=
  dir ++ "/" ++ code ++ "_news_cdp_full_" ++ ts ++ "." ++ fmt

/-- `_get_news_announcements`: navigate, scroll, CDP capture with viewport
fallback at the same path, then the news-list loop; the outer handler absorbs
every raise (a raising fallback capture leaves the still-empty list). -/
def getNewsAnnouncements (env : NewsPageEnv) (dir code ts fmt : String) :
    List NewsRec × List (String × Shot) :=
  if env.getOk ∧ env.scrollOk then
    let fp := newsFilePath dir code ts fmt
    let shot := takeFullPageScreenshotCdp env.cdp fp
    if shot.1 then (extractNewsItems env.items, shot.2)
    else if env.viewportShotOk then
      (extractNewsItems env.items, shot.2 ++ [(fp, Shot.viewport)])
    else ([], shot.2)
  else ([], [])

/-! ## `_get_investor_trends` -/

/-- One row of the buy/sell-by-actor table as the collector stores it. -/
structure FlowRec where
  date : String
  foreign_buy : String
  foreign_sell : String
  institution_buy : String
  institution_sell : String
  individual_volume : String
  index : Nat
  deriving DecidableEq, Repr, Inhabited

/-- The `if len(cells) >= 6` row guard and the record built from the first
six cells; shorter rows yield nothing. -/
def parseFlowRow (idx : Nat) (cells : List String) : Option FlowRec :=
  if 6 ≤ cells.length then
    some { date := pyStrip (cells.getD 0 "")
           foreign_buy := pyStrip (cells.getD 1 "")
           foreign_sell := pyStrip (cells.getD 2 "")
           institution_buy := pyStrip (cells.getD 3 "")
           institution_sell := pyStrip (cells.getD 4 "")
           individual_volume := pyStrip (cells.getD 5 "")
           index := idx + 1 }
  else none

/-- The `for idx, row in enumerate(rows)` loop over the sliced rows. -/
def extractFlowLoop : Nat → List (List String) → List FlowRec
  | _, [] => []
  | idx, cells :: rest =>
    match parseFlowRow idx cells with
    | none => extractFlowLoop (idx + 1) rest
    | some r => r :: extractFlowLoop (idx + 1) rest

/-- The table extraction: `rows[1:11]` (header dropped, at most 10 rows). -/
def extractFlowRows (rows : List (List String)) : List FlowRec :=
  extractFlowLoop 0 ((rows.drop 1).take 10)

/-- Environment of `_get_investor_trends`: page navigation, scroll, capture
primitives, and the trade table (`none` when the `.type2, .tb_cont` lookup
raises; rows are lists of `td` cell texts). -/
structure FlowsPageEnv where
  getOk : Bool
  scrollOk : Bool
  cdp : CdpEnv
  viewportShotOk : Bool
  table : Option (List (List String))
  deriving DecidableEq, Repr

/-- Target path of the investor-trends capture. -/
def flowsFilePath (dir code ts fmt : String) : String :=
  dir ++ "/" ++ code ++ "_investor_trends_cdp_full_" ++ ts ++ "." ++ fmt

/-- `_get_investor_trends`: navigate, scroll, CDP capture with viewport
fallback at the same path, then the table rows inside their own inner `try`
(a missing table degrades to the empty list). -/
def getInvestorTrends (env : FlowsPageEnv) (dir code ts fmt : String) :
    List FlowRec × List (String × Shot) :=
  if env.getOk ∧ env.scrollOk then
    let fp := flowsFilePath dir code ts fmt
    let shot := takeFullPageScreenshotCdp env.cdp fp
    if shot.1 then
      (extractFlowRows (env.table.getD []), shot.2)
    else if env.viewportShotOk then
      (extractFlowRows (env.table.getD []), shot.2 ++ [(fp, Shot.viewport)])
    else ([], shot.2)
  else ([], [])

/-! ## `_capture_company_analysis` -/

/-- Environment of `_capture_company_analysis`: navigation, the fixed-XPath
iframe lookup, the in-frame height script, the host-page resize script, the
CDP capture, the post-CDP-failure `save_screenshot`, and the plain-page
fallback (body height script, window resize, `save_screenshot`, size
restore). -/
structure AnalysisPageEnv where
  getOk : Bool
  iframeFound : Bool
  iframeHeight : Option Nat
  resizeScriptOk : Bool
  cdp : CdpEnv
  cdpFailShotOk : Bool
  bodyScrollHeight : Option Nat
  winSizeOk : Bool
  plainShotOk : Bool
  winRestoreOk : Bool
  deriving DecidableEq, Repr

/-- Target path of the in-iframe CDP capture. -/
def analysisCdpPath (dir code ts fmt : String) : String :=
  dir ++ "/" ++ code ++ "_company_analysis_cdp_full_" ++ ts ++ "." ++ fmt

/-- Target path of the plain host-page fallback capture. -/
def analysisFallbackPath (dir code ts fmt : String) : String :=
  dir ++ "/" ++ code ++ "_company_analysis_fallback_" ++ ts ++ "." ++ fmt

/-- The `except iframe_error` branch: measure the body height, widen the
window, `save_screenshot`, restore the window; a raise anywhere falls to the
outer handler (entries assigned before the raise are none, file writes
persist). -/
def analysisFallbackCapture (env : AnalysisPageEnv) (dir code ts fmt : String) :
    List (String × String) × List (String × Shot) :=
  match env.bodyScrollHeight with
  | none => ([], [])
  | some _ =>
    if env.winSizeOk then
      if env.plainShotOk then
        let fp := analysisFallbackPath dir code ts fmt
        if env.winRestoreOk then ([("fallback_screenshot", fp)], [(fp, Shot.viewport)])
        else ([], [(fp, Shot.viewport)])
      else ([], [])
    else ([], [])

/-- `_capture_company_analysis`: navigate, then the nested-frame path (switch
into the iframe, measure, resize it in the host page, CDP capture, with a
`save_screenshot` at the same path when CDP reports failure); any raise in
that inner block falls back to the plain host-page capture; the outer handler
absorbs the rest. -/
def captureCompanyAnalysis (env : AnalysisPageEnv) (dir code ts fmt : String) :
    List (String × String) × List (String × Shot) :=
  if env.getOk then
    if env.iframeFound then
      match env.iframeHeight with
      | none => analysisFallbackCapture env dir code ts fmt
      | some _ =>
        if env.resizeScriptOk then
          let fp := analysisCdpPath dir code ts fmt
          let shot := takeFullPageScreenshotCdp env.cdp fp
          if shot.1 then ([("cdp_screenshot", fp)], shot.2)
          else if env.cdpFailShotOk then
            ([("fallback_screenshot", fp)], shot.2 ++ [(fp, Shot.viewport)])
          else analysisFallbackCapture env dir code ts fmt
        else analysisFallbackCapture env dir code ts fmt
    else analysisFallbackCapture env dir code ts fmt
  else ([], [])

/-! ## `_capture_advanced_charts` -/

/-- Environment of one interval attempt inside `_capture_advanced_charts`:
the synthetic pointer-event script (`none` = the script raised, `some b` =
its boolean return), the chart-area element lookup, the element screenshot,
and the full-page fallback screenshot. -/
structure ChartAttemptEnv where
  clickRet : Option Bool
  areaElem : Bool
  areaShotOk : Bool
  fullShotOk : Bool
  deriving DecidableEq, Repr

/-- One interval's attempt: a raising or `false`-returning click script skips
the capture (per-interval handler / `continue`); otherwise the chart-region
element capture, degrading to a full-page capture, degrading to nothing. -/
def captureOneChart (a : ChartAttemptEnv) (dir code ts fmt name : String) :
    List (String × String) × List (String × Shot) :=
  match a.clickRet with
  | none => ([], [])
  | some false => ([], [])
  | some true =>
    if a.areaElem ∧ a.areaShotOk then
      let fp := dir ++ "/" ++ code ++ "_chart_" ++ name ++ "_" ++ ts ++ "." ++ fmt
      ([("chart_" ++ name, fp)], [(fp, Shot.elementRegion)])
    else if a.fullShotOk then
      let fp := dir ++ "/" ++ code ++ "_chart_" ++ name ++ "_full_" ++ ts ++ "." ++ fmt
      ([("chart_" ++ name ++ "_full", fp)], [(fp, Shot.viewport)])
    else ([], [])

/-- Environment of `_capture_advanced_charts`.  The indicator-overlay block
(menu, MACD, RSI, Stochastic clicks) only mutates the page and is caught by
its own handler, so its outcome adds no observable state here beyond the
flag. -/
structure ChartsPageEnv where
  getOk : Bool
  indicatorSetupOk : Bool
  month : ChartAttemptEnv
  week : ChartAttemptEnv
  day : ChartAttemptEnv
  hour : ChartAttemptEnv
  deriving DecidableEq, Repr

/-- `_capture_advanced_charts`: navigate, best-effort indicator setup, then
the month/week/day interval loop and the intra-day (60-minute) attempt, each
in its own handler. -/
def captureAdvancedCharts (env : ChartsPageEnv) (dir code ts fmt : String) :
    List (String × String) × List (String × Shot) :=
  if env.getOk then
    let m := captureOneChart env.month dir code ts fmt "month"
    let w := captureOneChart env.week dir code ts fmt "week"
    let d := captureOneChart env.day dir code ts fmt "day"
    let h := captureOneChart env.hour dir code ts fmt "1hour"
    (m.1 ++ w.1 ++ d.1 ++ h.1, m.2 ++ w.2 ++ d.2 ++ h.2)
  else ([], [])

/-! ## `_get_related_themes` -/

/-- The themes panel: `none` when the `.group_theme` section lookup raises,
otherwise the texts of its anchor links. -/
structure ThemesDom where
  themeSection : Option (List String)
  deriving DecidableEq, Repr

/-- The loop body of `_get_related_themes`: append the stripped link text
unless it is empty or already collected
(`if theme_text and theme_text not in themes`). -/
def themeStep (acc : List String) (t0 : String) : List String :=
  let t := pyStrip t0
  if t ≠ "" ∧ ¬ t ∈ acc then acc ++ [t] else acc

/-- `_get_related_themes`: collect each link text of the themes panel,
skipping empties and duplicates. -/
def getRelatedThemes (dom : ThemesDom) : List String :=
  match dom.themeSection with
  | none => []
  | some links => links.foldl themeStep []

/-! ## `_setup_driver` and the collect orchestration -/

/-- Environment of `_setup_driver`: the profile-directory `os.makedirs`, the
two `uc.Chrome` creation attempts (the second is the retry after the first
raised), and the wait configuration (`implicitly_wait` / `WebDriverWait`). -/
structure SetupEnv where
  mkdirsOk : Bool
  firstChromeOk : Bool
  retryChromeOk : Bool
  configureWaitsOk : Bool
  deriving DecidableEq, Repr

/-- Result of `_setup_driver`: normal return, a raise before any driver
exists, or a raise after a Chrome process was created (the outer handler
re-raises either way). -/
inductive SetupResult
  | ok
  | failNoDriver
  | failDriverOpen
  deriving DecidableEq, Repr

/-- `_setup_driver` as observed by `collect_stock_data`. -/
def setupDriver (env : SetupEnv) : SetupResult :=
  if env.mkdirsOk then
    if env.firstChromeOk ∨ env.retryChromeOk then
      if env.configureWaitsOk then SetupResult.ok else SetupResult.failDriverOpen
    else SetupResult.failNoDriver
  else SetupResult.failNoDriver

/-- The stages `collect_stock_data` drives, in order.  `relatedThemes` names
the `_get_related_themes` extractor, which the orchestrator never invokes. -/
inductive Step
  | setupFolder
  | setupDriverStep
  | navigateOverview
  | basicInfo
  | companyAnalysis
  | newsAnnouncements
  | investorTrends
  | advancedCharts
  | relatedThemes
  deriving DecidableEq, Repr

/-- Observable run state after `collect_stock_data`: whether the Chrome
process is still alive, the image files written, and the stages that were
entered. -/
structure RunState where
  driverOpen : Bool
  files : List (String × Shot)
  steps : List Step
  deriving DecidableEq, Repr

/-- One aggregate record, mirroring the `StockData` dataclass.  The
`investment_opinion` field is declared as a dict in the source but the
orchestrator assigns the company-description string to it, so it is a string
here; dict-valued fields are association lists. -/
structure StockData where
  stock_code : String
  stock_name : String
  current_price : String
  price_change : String
  change_rate : String
  volume : String
  market_cap : String
  investment_opinion : String
  news_data : List NewsRec
  discussion_data : List FlowRec
  related_themes : List String
  chart_screenshots : List (String × String)
  financial_data : List (String × String)
  technical_indicators : List (String × String)
  collected_at : String
  deriving DecidableEq, Repr, Inhabited

/-- Whole-run environment: `_setup_stock_screenshot_folder`'s `mkdir`, the
driver setup, and the per-page environments. -/
structure CollectEnv where
  folderOk : Bool
  setup : SetupEnv
  nav : NavEnv
  overview : OverviewDom
  analysis : AnalysisPageEnv
  news : NewsPageEnv
  flows : FlowsPageEnv
  charts : ChartsPageEnv
  deriving DecidableEq, Repr

/-- The per-run artifact directory `<save_path>/<code>_<timestamp>`. -/
def runDirOf (cfg : ScreenshotConfig) (stockCode ts : String) : String :=
  cfg.save_path ++ "/" ++ stockCode ++ "_" ++ ts

/-- `collect_stock_data(stock_code)`.  The `except` handler (and only it)
calls `_close_driver`; the `return None` taken when `_navigate_to_stock`
reports failure happens inside the `try` block, so the driver stays open
there, and the success path deliberately leaves the driver open for the
caller (`close_driver_if_needed`).  Every page-stage helper catches its own
exceptions, so after a successful navigation no raise reaches the handler
and all five stages run. -/
def collectStockData (cfg : ScreenshotConfig) (env : CollectEnv)
    (stockCode ts : String) : Option StockData × RunState :=
  if env.folderOk then
    match setupDriver env.setup with
    | SetupResult.failNoDriver =>
        (none, { driverOpen := false, files := [],
                 steps := [Step.setupFolder, Step.setupDriverStep] })
    | SetupResult.failDriverOpen =>
        (none, { driverOpen := false, files := [],
                 steps := [Step.setupFolder, Step.setupDriverStep] })
    | SetupResult.ok =>
      if navigateToStock env.nav then
        let dir := runDirOf cfg stockCode ts
        let basic := getBasicInfo env.overview
        let analysis := captureCompanyAnalysis env.analysis dir stockCode ts cfg.format
        let news := getNewsAnnouncements env.news dir stockCode ts cfg.format
        let flows := getInvestorTrends env.flows dir stockCode ts cfg.format
        let charts := captureAdvancedCharts env.charts dir stockCode ts cfg.format
        (some { stock_code := stockCode
                stock_name := dictGetD basic "stock_name" ""
                current_price := dictGetD basic "current_price" ""
                price_change := dictGetD basic "price_change" ""
                change_rate := dictGetD basic "change_rate" ""
                volume := dictGetD basic "volume" ""
                market_cap := dictGetD basic "market_cap" ""
                investment_opinion := dictGetD basic "company_description" ""
                news_data := news.1
                discussion_data := flows.1
                related_themes := []
                chart_screenshots := analysis.1 ++ charts.1
                financial_data := []
                technical_indicators := []
                collected_at := ts },
         { driverOpen := true,
           files := analysis.2 ++ news.2 ++ flows.2 ++ charts.2,
           steps := [Step.setupFolder, Step.setupDriverStep, Step.navigateOverview,
                     Step.basicInfo, Step.companyAnalysis, Step.newsAnnouncements,
                     Step.investorTrends, Step.advancedCharts] })
      else
        (none, { driverOpen := true, files := [],
                 steps := [Step.setupFolder, Step.setupDriverStep, Step.navigateOverview] })
  else
    (none, { driverOpen := false, files := [], steps := [Step.setupFolder] })

/-! ## `save_data_to_json` and the collector's attribute set -/

/-- The attributes `StockDataCollector.__init__` assigns on `self`. -/
def initAttrNames : List String :=
  ["config", "driver", "wait", "base_screenshot_dir", "current_stock_screenshot_dir"]

/-- The attributes any other method of the class assigns on `self`
(`_setup_driver` sets `driver` and `wait`, `_setup_stock_screenshot_folder`
sets `current_stock_screenshot_dir`). -/
def methodAssignedAttrNames : List String :=
  ["driver", "wait", "current_stock_screenshot_dir"]

/-- `save_data_to_json(stock_data, filepath)`.  With `filepath=None` the code
reads `self.screenshot_dir` before entering its `try` block; `attrs` is the
set of attributes the object carries, so a lookup outside it raises
`AttributeError` to the caller.  (Were the attribute present, the path would
be `<screenshot_dir>/../data/<code>_<timestamp>.json`; `dirParent` stands for
that derivation.)  The `try` block serializes the record and returns the
path; its handler re-raises, so a failing write propagates. -/
def saveDataToJson (attrs : List String) (stockData : StockData)
    (filepath : Option String) (ts : String) (dirParent : String)
    (writeOk : Bool) : Except PyErr String :=
  match filepath with
  | some fp => if writeOk then Except.ok fp else Except.error PyErr.osError
  | none =>
    if "screenshot_dir" ∈ attrs then
      let fname := stockData.stock_code ++ "_" ++ ts ++ ".json"
      let fp := dirParent ++ "/data/" ++ fname
      if writeOk then Except.ok fp else Except.error PyErr.osError
    else Except.error PyErr.attributeError

/-! ## Sample environments used to instantiate the theorems -/

/-- Default screenshot config values from `src/config.py`. -/
def cfgD : ScreenshotConfig := { save_path := "screenshots", format := "png" }

/-- All-success CDP environment. -/
def cdpOkEnv : CdpEnv := { layoutMetricsOk := true, captureOk := true, writeOk := true }

/-- CDP environment where the layout-metrics query raises. -/
def cdpFailEnv : CdpEnv := { layoutMetricsOk := false, captureOk := false, writeOk := false }

/-- An overview page with all fields present. -/
def domOk : OverviewDom :=
  { stockNameElem := some "삼성전자", stockCodeElem := some "005930"
    currentPriceElem := some "70,000", exdayElems := ["1,000", "+1.45%"]
    summaryLink := true, summaryClickOk := true
    summaryInfoPs := ["한국의 대표 전자기업", "출처 : 전자공시"]
    closeBtn := true, pageTitle := some "삼성전자 : 네이버페이 증권" }

/-- An overview page whose stock-name element is absent while every other
field, including the stock-code element, is present. -/
def domNoName : OverviewDom :=
  { domOk with stockNameElem := none }

/-- A fully parseable news element. -/
def newsItemOk : NewsItemElem :=
  { aElem := some (some "실적 발표", "실적 발표"), dateText := some "2024.01.05"
    pressText := some "연합뉴스" }

/-- An all-success news-page environment with one listed item. -/
def newsEnvOk : NewsPageEnv :=
  { getOk := true, scrollOk := true, cdp := cdpOkEnv, viewportShotOk := true
    items := [newsItemOk] }

/-- A news-page environment whose CDP capture fails but whose viewport
fallback succeeds. -/
def newsEnvCdpFail : NewsPageEnv :=
  { newsEnvOk with cdp := cdpFailEnv }

/-- An all-success flows-page environment with a header row, one well-formed
row and one short row. -/
def flowsEnvOk : FlowsPageEnv :=
  { getOk := true, scrollOk := true, cdp := cdpOkEnv, viewportShotOk := true
    table := some [["날짜", "외국인", "외국인", "기관", "기관", "개인"],
                   ["2024.01.05", "1,000", "500", "300", "200", "800"],
                   ["2024.01.04"]] }

/-- An all-success company-analysis environment. -/
def analysisEnvOk : AnalysisPageEnv :=
  { getOk := true, iframeFound := true, iframeHeight := some 3200
    resizeScriptOk := true, cdp := cdpOkEnv, cdpFailShotOk := true
    bodyScrollHeight := some 2400, winSizeOk := true, plainShotOk := true
    winRestoreOk := true }

/-- A company-analysis environment whose iframe lookup raises. -/
def analysisEnvNoIframe : AnalysisPageEnv :=
  { analysisEnvOk with iframeFound := false }

/-- An all-success interval attempt. -/
def chartAttemptOk : ChartAttemptEnv :=
  { clickRet := some true, areaElem := true, areaShotOk := true, fullShotOk := true }

/-- An all-success charts-page environment. -/
def chartsEnvOk : ChartsPageEnv :=
  { getOk := true, indicatorSetupOk := true, month := chartAttemptOk
    week := chartAttemptOk, day := chartAttemptOk, hour := chartAttemptOk }

/-- An all-success driver setup. -/
def setupEnvOk : SetupEnv :=
  { mkdirsOk := true, firstChromeOk := true, retryChromeOk := true
    configureWaitsOk := true }

/-- A driver setup in which both `uc.Chrome` attempts raise. -/
def setupEnvNoChrome : SetupEnv :=
  { mkdirsOk := true, firstChromeOk := false, retryChromeOk := false
    configureWaitsOk := true }

/-- A navigation environment whose first readiness probe succeeds. -/
def navEnvOk : NavEnv :=
  { getOk := true
    ready := [SelWait.found, SelWait.found, SelWait.found, SelWait.found, SelWait.found] }

/-- A whole-run environment in which every stage succeeds. -/
def envOk : CollectEnv :=
  { folderOk := true, setup := setupEnvOk, nav := navEnvOk, overview := domOk
    analysis := analysisEnvOk, news := newsEnvOk, flows := flowsEnvOk
    charts := chartsEnvOk }

/-- `envOk` except that `driver.get` on the overview page raises, making
`_navigate_to_stock` report failure. -/
def envNavRaise : CollectEnv :=
  { envOk with nav := { getOk := false, ready := navEnvOk.ready } }

/-- `envOk` except that every overview readiness probe times out: the page
never reports ready within the bounded timeout. -/
def envTimeout : CollectEnv :=
  { envOk with
    nav := { getOk := true
             ready := [SelWait.timeoutHit, SelWait.timeoutHit, SelWait.timeoutHit,
                       SelWait.timeoutHit, SelWait.timeoutHit] } }

/-- `envOk` except that the iframe lookup on the company-analysis page
raises. -/
def envNoIframe : CollectEnv :=
  { envOk with analysis := analysisEnvNoIframe }

/-- `envOk` except that the news-page CDP capture fails. -/
def envNewsCdpFail : CollectEnv :=
  { envOk with news := newsEnvCdpFail }

/-! ## Helper lemmas -/

/-- The three (title, date, source) strings of a news record. -/
def newsTriple (r : NewsRec) : String × String × String :=
  (r.title, r.date, r.source)

/-- The six cell strings of a flow record. -/
def flowCells (r : FlowRec) : String × String × String × String × String × String :=
  (r.date, r.foreign_buy, r.foreign_sell, r.institution_buy, r.institution_sell,
   r.individual_volume)

/-- Index-free view of the row guard of `_get_investor_trends`. -/
def parseFlowCellsOnly (cells : List String) :
    Option (String × String × String × String × String × String) :=
  if 6 ≤ cells.length then
    some (pyStrip (cells.getD 0 ""), pyStrip (cells.getD 1 ""), pyStrip (cells.getD 2 ""),
          pyStrip (cells.getD 3 ""), pyStrip (cells.getD 4 ""), pyStrip (cells.getD 5 ""))
  else none

theorem extractNewsLoop_length_le (n : Nat) (l : List NewsItemElem) :
    (extractNewsLoop n l).length ≤ l.length := by
  induction l generalizing n with
  | nil => simp [extractNewsLoop]
  | cons e rest ih =>
    unfold extractNewsLoop
    cases parseNewsElem e with
    | none => exact Nat.le_succ_of_le (ih (n + 1))
    | some t => simpa using ih (n + 1)

theorem extractNewsLoop_map_triple (n : Nat) (l : List NewsItemElem) :
    (extractNewsLoop n l).map newsTriple = l.filterMap parseNewsElem := by
  induction l generalizing n with
  | nil => simp [extractNewsLoop]
  | cons e rest ih =>
    unfold extractNewsLoop
    cases he : parseNewsElem e with
    | none => simp [List.filterMap_cons, he, ih (n + 1)]
    | some t => simp [List.filterMap_cons, he, ih (n + 1), newsTriple]

theorem extractNewsLoop_index_gt (n : Nat) (l : List NewsItemElem) :
    ∀ r ∈ extractNewsLoop n l, n < r.index := by
  induction l generalizing n with
  | nil => simp [extractNewsLoop]
  | cons e rest ih =>
    intro r hr
    unfold extractNewsLoop at hr
    cases he : parseNewsElem e with
    | none =>
      rw [he] at hr
      exact Nat.lt_of_succ_lt (ih (n + 1) r hr)
    | some t =>
      rw [he] at hr
      rcases List.mem_cons.mp hr with h | h
      · simp [h]
      · exact Nat.lt_of_succ_lt (ih (n + 1) r h)

theorem extractNewsLoop_pairwise (n : Nat) (l : List NewsItemElem) :
    (extractNewsLoop n l).Pairwise (fun a b => a.index < b.index) := by
  induction l generalizing n with
  | nil => simp [extractNewsLoop]
  | cons e rest ih =>
    unfold extractNewsLoop
    cases he : parseNewsElem e with
    | none => exact ih (n + 1)
    | some t =>
      refine List.Pairwise.cons ?_ (ih (n + 1))
      intro b hb
      simpa using extractNewsLoop_index_gt (n + 1) rest b hb

theorem extractFlowLoop_length_le (n : Nat) (l : List (List String)) :
    (extractFlowLoop n l).length ≤ l.length := by
  induction l generalizing n with
  | nil => simp [extractFlowLoop]
  | cons cells rest ih =>
    unfold extractFlowLoop
    cases parseFlowRow n cells with
    | none => exact Nat.le_succ_of_le (ih (n + 1))
    | some r => simpa using ih (n + 1)

theorem parseFlowRow_cells (n : Nat) (cells : List String) :
    (parseFlowRow n cells).map flowCells = parseFlowCellsOnly cells := by
  unfold parseFlowRow parseFlowCellsOnly
  split <;> simp [flowCells]

theorem extractFlowLoop_map_cells (n : Nat) (l : List (List String)) :
    (extractFlowLoop n l).map flowCells = l.filterMap parseFlowCellsOnly := by
  induction l generalizing n with
  | nil => simp [extractFlowLoop]
  | cons cells rest ih =>
    unfold extractFlowLoop
    cases he : parseFlowRow n cells with
    | none =>
      have hc : parseFlowCellsOnly cells = none := by
        rw [← parseFlowRow_cells n cells, he]; rfl
      simp [List.filterMap_cons, hc, ih (n + 1)]
    | some r =>
      have hc : parseFlowCellsOnly cells = some (flowCells r) := by
        rw [← parseFlowRow_cells n cells, he]; rfl
      simp [List.filterMap_cons, hc, ih (n + 1)]

theorem extractFlowLoop_index_gt (n : Nat) (l : List (List String)) :
    ∀ r ∈ extractFlowLoop n l, n < r.index := by
  induction l generalizing n with
  | nil => simp [extractFlowLoop]
  | cons cells rest ih =>
    intro r hr
    unfold extractFlowLoop at hr
    cases he : parseFlowRow n cells with
    | none =>
      rw [he] at hr
      exact Nat.lt_of_succ_lt (ih (n + 1) r hr)
    | some r0 =>
      rw [he] at hr
      rcases List.mem_cons.mp hr with h | h
      · subst h
        unfold parseFlowRow at he
        split at he
        · simp at he
          simp [← he]
        · exact absurd he (by simp)
      · exact Nat.lt_of_succ_lt (ih (n + 1) r h)

theorem extractFlowLoop_pairwise (n : Nat) (l : List (List String)) :
    (extractFlowLoop n l).Pairwise (fun a b => a.index < b.index) := by
  induction l generalizing n with
  | nil => simp [extractFlowLoop]
  | cons cells rest ih =>
    unfold extractFlowLoop
    cases he : parseFlowRow n cells with
    | none => exact ih (n + 1)
    | some r =>
      refine List.Pairwise.cons ?_ (ih (n + 1))
      intro b hb
      have hlt := extractFlowLoop_index_gt (n + 1) rest b hb
      have hidx : r.index = n + 1 := by
        unfold parseFlowRow at he
        split at he
        · simp at he
          simp [← he]
        · exact absurd he (by simp)
      omega

/-- A failing CDP capture writes no file. -/
theorem cdpFail_no_files (env : CdpEnv) (p : String)
    (h : (takeFullPageScreenshotCdp env p).1 = false) :
    (takeFullPageScreenshotCdp env p).2 = [] := by
  unfold takeFullPageScreenshotCdp at h ⊢
  by_cases h1 : env.layoutMetricsOk <;> by_cases h2 : env.captureOk <;>
    by_cases h3 : env.writeOk <;> simp_all

/-- Characterization of the run-aborting condition of `collect_stock_data`:
no record is returned exactly when the screenshot-folder creation or the
driver setup raised, or `_navigate_to_stock` reported failure. -/
theorem collect_fst_none_iff (cfg : ScreenshotConfig) (env : CollectEnv)
    (code ts : String) :
    (collectStockData cfg env code ts).1 = none ↔
      (env.folderOk = false ∨ setupDriver env.setup ≠ SetupResult.ok ∨
        navigateToStock env.nav = false) := by
  unfold collectStockData
  by_cases hf : env.folderOk
  · cases hs : setupDriver env.setup with
    | failNoDriver => simp [hf, hs]
    | failDriverOpen => simp [hf, hs]
    | ok =>
      by_cases hn : navigateToStock env.nav
      · simp [hf, hs, hn]
      · simp only [Bool.not_eq_true] at hn
        simp [hf, hs, hn]
  · simp [Bool.not_eq_true] at hf
    simp [hf]

/-- On the success path the record and run state are the ones built at the
end of the `try` block. -/
theorem collect_success_eq (cfg : ScreenshotConfig) (env : CollectEnv)
    (code ts : String) (hf : env.folderOk = true)
    (hs : setupDriver env.setup = SetupResult.ok)
    (hn : navigateToStock env.nav = true) :
    collectStockData cfg env code ts =
      (some { stock_code := code
              stock_name := dictGetD (getBasicInfo env.overview) "stock_name" ""
              current_price := dictGetD (getBasicInfo env.overview) "current_price" ""
              price_change := dictGetD (getBasicInfo env.overview) "price_change" ""
              change_rate := dictGetD (getBasicInfo env.overview) "change_rate" ""
              volume := dictGetD (getBasicInfo env.overview) "volume" ""
              market_cap := dictGetD (getBasicInfo env.overview) "market_cap" ""
              investment_opinion := dictGetD (getBasicInfo env.overview) "company_description" ""
              news_data := (getNewsAnnouncements env.news (runDirOf cfg code ts) code ts cfg.format).1
              discussion_data := (getInvestorTrends env.flows (runDirOf cfg code ts) code ts cfg.format).1
              related_themes := []
              chart_screenshots :=
                (captureCompanyAnalysis env.analysis (runDirOf cfg code ts) code ts cfg.format).1 ++
                  (captureAdvancedCharts env.charts (runDirOf cfg code ts) code ts cfg.format).1
              financial_data := []
              technical_indicators := []
              collected_at := ts },
       { driverOpen := true
         files :=
           (captureCompanyAnalysis env.analysis (runDirOf cfg code ts) code ts cfg.format).2 ++
             (getNewsAnnouncements env.news (runDirOf cfg code ts) code ts cfg.format).2 ++
             (getInvestorTrends env.flows (runDirOf cfg code ts) code ts cfg.format).2 ++
             (captureAdvancedCharts env.charts (runDirOf cfg code ts) code ts cfg.format).2
         steps := [Step.setupFolder, Step.setupDriverStep, Step.navigateOverview,
                   Step.basicInfo, Step.companyAnalysis, Step.newsAnnouncements,
                   Step.investorTrends, Step.advancedCharts] }) := by
  unfold collectStockData
  simp [hf, hs, hn]

/-- `envOk` except that both `uc.Chrome` creation attempts raise. -/
def envNoChrome : CollectEnv :=
  { envOk with setup := setupEnvNoChrome }

/-- The readiness loop only escapes by exception when some probe raised a
non-timeout error. -/
theorem navLoop_no_error (l : List SelWait) (h : ∀ s ∈ l, s ≠ SelWait.errored) :
    navLoop l ≠ Except.error () := by
  induction l with
  | nil => simp [navLoop]
  | cons s rest ih =>
    cases s with
    | found => simp [navLoop]
    | timeoutHit =>
      simpa [navLoop] using ih fun x hx => h x (List.mem_cons_of_mem _ hx)
    | errored =>
      exact absurd rfl (h SelWait.errored (List.mem_cons_self _ _))

/-- `_navigate_to_stock` returns `True` whenever `driver.get` succeeded and
no probe raised a non-timeout error — even when every probe timed out. -/
theorem navigate_true_of_no_error (env : NavEnv) (hg : env.getOk = true)
    (h : ∀ s ∈ env.ready, s ≠ SelWait.errored) : navigateToStock env = true := by
  unfold navigateToStock
  rw [hg]
  cases hl : navLoop env.ready with
  | error u => cases u; exact absurd hl (navLoop_no_error env.ready h)
  | ok b => simp

/-- The news list `_get_news_announcements` returns is the loop extraction or,
after an absorbed raise, the empty list. -/
theorem getNews_fst_cases (env : NewsPageEnv) (dir code ts fmt : String) :
    (getNewsAnnouncements env dir code ts fmt).1 = extractNewsItems env.items ∨
    (getNewsAnnouncements env dir code ts fmt).1 = [] := by
  unfold getNewsAnnouncements
  by_cases h1 : env.getOk = true ∧ env.scrollOk = true
  · rw [if_pos h1]
    by_cases h2 : (takeFullPageScreenshotCdp env.cdp (newsFilePath dir code ts fmt)).1 = true
    · rw [if_pos h2]; left; rfl
    · rw [if_neg h2]
      by_cases h3 : env.viewportShotOk = true
      · rw [if_pos h3]; left; rfl
      · rw [if_neg h3]; right; rfl
  · rw [if_neg h1]; right; rfl

/-- The flow list `_get_investor_trends` returns is the table extraction or,
after an absorbed raise, the empty list. -/
theorem getFlows_fst_cases (env : FlowsPageEnv) (dir code ts fmt : String) :
    (getInvestorTrends env dir code ts fmt).1 = extractFlowRows (env.table.getD []) ∨
    (getInvestorTrends env dir code ts fmt).1 = [] := by
  unfold getInvestorTrends
  by_cases h1 : env.getOk = true ∧ env.scrollOk = true
  · rw [if_pos h1]
    by_cases h2 : (takeFullPageScreenshotCdp env.cdp (flowsFilePath dir code ts fmt)).1 = true
    · rw [if_pos h2]; left; rfl
    · rw [if_neg h2]
      by_cases h3 : env.viewportShotOk = true
      · rw [if_pos h3]; left; rfl
      · rw [if_neg h3]; right; rfl
  · rw [if_neg h1]; right; rfl

/-- Every record the flow loop emits comes from some listed row. -/
theorem extractFlowLoop_mem (n : Nat) (l : List (List String)) (r : FlowRec)
    (h : r ∈ extractFlowLoop n l) :
    ∃ cells, cells ∈ l ∧ ∃ m, parseFlowRow m cells = some r := by
  induction l generalizing n with
  | nil => simp [extractFlowLoop] at h
  | cons cells rest ih =>
    unfold extractFlowLoop at h
    cases he : parseFlowRow n cells with
    | none =>
      rw [he] at h
      obtain ⟨c, hc, m, hm⟩ := ih (n + 1) h
      exact ⟨c, List.mem_cons_of_mem _ hc, m, hm⟩
    | some r0 =>
      rw [he] at h
      rcases List.mem_cons.mp h with h | h
      · exact ⟨cells, List.mem_cons_self _ _, n, by rw [he, h]⟩
      · obtain ⟨c, hc, m, hm⟩ := ih (n + 1) h
        exact ⟨c, List.mem_cons_of_mem _ hc, m, hm⟩

/-- Inverting a successful run: the branch conditions all held. -/
theorem collect_fst_some_inv (cfg : ScreenshotConfig) (env : CollectEnv)
    (code ts : String) (d : StockData)
    (h : (collectStockData cfg env code ts).1 = some d) :
    env.folderOk = true ∧ setupDriver env.setup = SetupResult.ok ∧
      navigateToStock env.nav = true := by
  have h1 : ¬ ((collectStockData cfg env code ts).1 = none) := by simp [h]
  rw [collect_fst_none_iff] at h1
  push_neg at h1
  obtain ⟨hf, hs, hn⟩ := h1
  refine ⟨?_, hs, ?_⟩
  · cases hB : env.folderOk
    · exact absurd hB hf
    · rfl
  · cases hB : navigateToStock env.nav
    · exact absurd hB hn
    · rfl

/-- Identity and theme fields of any record a successful run returns. -/
theorem collect_some_fields (cfg : ScreenshotConfig) (env : CollectEnv)
    (code ts : String) (d : StockData)
    (h : (collectStockData cfg env code ts).1 = some d) :
    d.stock_code = code ∧ d.related_themes = [] := by
  obtain ⟨hf, hs, hn⟩ := collect_fst_some_inv cfg env code ts d h
  rw [collect_success_eq cfg env code ts hf hs hn] at h
  simp only [Option.some.injEq] at h
  rw [← h]
  exact ⟨rfl, rfl⟩

/-- The orchestrator never enters a related-themes stage. -/
theorem collect_no_theme_step (cfg : ScreenshotConfig) (env : CollectEnv)
    (code ts : String) :
    Step.relatedThemes ∉ (collectStockData cfg env code ts).2.steps := by
  unfold collectStockData
  by_cases hf : env.folderOk = true
  · rw [if_pos hf]
    cases hs : setupDriver env.setup with
    | failNoDriver => simp
    | failDriverOpen => simp
    | ok =>
      by_cases hn : navigateToStock env.nav = true
      · simp [hn]
      · simp [hn]
  · rw [if_neg hf]; simp

/-- The dedup fold of `_get_related_themes` keeps its accumulator
duplicate-free. -/
theorem themesFold_nodup (links : List String) (acc : List String)
    (hacc : acc.Nodup) : (links.foldl themeStep acc).Nodup := by
  induction links generalizing acc with
  | nil => simpa using hacc
  | cons t0 rest ih =>
    simp only [List.foldl_cons]
    refine ih (themeStep acc t0) ?_
    unfold themeStep
    by_cases hc : pyStrip t0 ≠ "" ∧ ¬ pyStrip t0 ∈ acc
    · rw [if_pos hc]
      simp [List.nodup_append, hacc, hc.2]
    · rw [if_neg hc]
      exact hacc

/-! ## Claim theorems -/

/-- C1, counterexample: with every stage healthy except that `driver.get` on
the overview page raises, `collect_stock_data` returns no record via the
`return None` inside the `try` block — and the Chrome process is left open,
refuting "the browser session is released on every exit path". -/
theorem sdc_c1_counterexample :
    (collectStockData cfgD envNavRaise "005930" "2509190807").1 = none ∧
    (collectStockData cfgD envNavRaise "005930" "2509190807").2.driverOpen = true :=
  ⟨rfl, rfl⟩

/-- C1, amended: `collect_stock_data` releases the browser only on the
exception path (folder creation or driver setup raising); when the overview
navigation reports failure it returns no record with the session still open,
and on success it deliberately leaves the session open for the caller's
`close_driver_if_needed`. -/
theorem sdc_c1_driver_release_amended (cfg : ScreenshotConfig) (env : CollectEnv)
    (code ts : String) :
    ((env.folderOk = false ∨ setupDriver env.setup ≠ SetupResult.ok) →
       (collectStockData cfg env code ts).1 = none ∧
       (collectStockData cfg env code ts).2.driverOpen = false) ∧
    (env.folderOk = true → setupDriver env.setup = SetupResult.ok →
       navigateToStock env.nav = false →
       (collectStockData cfg env code ts).1 = none ∧
       (collectStockData cfg env code ts).2.driverOpen = true) ∧
    (∀ d, (collectStockData cfg env code ts).1 = some d →
       (collectStockData cfg env code ts).2.driverOpen = true) := by
  refine ⟨?_, ?_, ?_⟩
  · rintro (hf | hs)
    · unfold collectStockData
      simp [hf]
    · unfold collectStockData
      by_cases hf : env.folderOk = true
      · rw [if_pos hf]
        cases hsv : setupDriver env.setup with
        | ok => exact absurd hsv hs
        | failNoDriver => exact ⟨rfl, rfl⟩
        | failDriverOpen => exact ⟨rfl, rfl⟩
      · rw [if_neg hf]
        exact ⟨rfl, rfl⟩
  · intro hf hs hn
    unfold collectStockData
    rw [if_pos hf, hs]
    rw [if_neg (by simp [hn])]
    exact ⟨rfl, rfl⟩
  · intro d hd
    obtain ⟨hf, hs, hn⟩ := collect_fst_some_inv cfg env code ts d hd
    rw [collect_success_eq cfg env code ts hf hs hn]

/-- C1 witness: the amended release behavior at concrete inputs — a run whose
Chrome launch fails ends closed with no record; a run whose overview
navigation fails ends with no record and the driver still open. -/
theorem sdc_c1_driver_release_amended_witness :
    ((collectStockData cfgD envNoChrome "005930" "2509190807").1 = none ∧
      (collectStockData cfgD envNoChrome "005930" "2509190807").2.driverOpen = false) ∧
    ((collectStockData cfgD envNavRaise "005930" "2509190807").1 = none ∧
      (collectStockData cfgD envNavRaise "005930" "2509190807").2.driverOpen = true) :=
  ⟨(sdc_c1_driver_release_amended cfgD envNoChrome "005930" "2509190807").1
      (Or.inr (by decide)),
   (sdc_c1_driver_release_amended cfgD envNavRaise "005930" "2509190807").2.1
      rfl rfl rfl⟩

/-- C2, counterexample: an overview page on which every readiness probe times
out — the page never reports loaded within the bounded timeout — still yields
a record, refuting "no record if and only if the initial overview-page
navigation fails to load within the bounded timeout". -/
theorem sdc_c2_counterexample :
    envTimeout.nav.ready =
      [SelWait.timeoutHit, SelWait.timeoutHit, SelWait.timeoutHit,
       SelWait.timeoutHit, SelWait.timeoutHit] ∧
    (collectStockData cfgD envTimeout "005930" "2509190807").1.isSome = true :=
  ⟨rfl, rfl⟩

/-- C2, amended: `collect_stock_data` returns no record exactly when the
screenshot-folder creation or the driver setup raises, or
`_navigate_to_stock` reports failure — and that navigation helper reports
failure only for a raising `driver.get` or a non-timeout wait error, never
for mere readiness timeouts; every later stage's failure still yields a
record. -/
theorem sdc_c2_none_iff_amended (cfg : ScreenshotConfig) (env : CollectEnv)
    (code ts : String) :
    ((collectStockData cfg env code ts).1 = none ↔
      (env.folderOk = false ∨ setupDriver env.setup ≠ SetupResult.ok ∨
        navigateToStock env.nav = false)) ∧
    (env.nav.getOk = true → (∀ s ∈ env.nav.ready, s ≠ SelWait.errored) →
      navigateToStock env.nav = true) :=
  ⟨collect_fst_none_iff cfg env code ts,
   fun hg h => navigate_true_of_no_error env.nav hg h⟩

/-- C2 witness: at the all-timeout environment the navigation helper still
reports success. -/
theorem sdc_c2_none_iff_amended_witness :
    navigateToStock envTimeout.nav = true :=
  (sdc_c2_none_iff_amended cfgD envTimeout "005930" "2509190807").2 rfl (by decide)

/-- C3, counterexample: on an overview DOM whose stock-name element is absent
while the stock-code element is present with text "005930", `_get_basic_info`
returns only the title-derived stock name — the stock-code, price and change
fields are all missing, refuting "extraction of every other field proceeds
unaffected". -/
theorem sdc_c3_counterexample :
    domNoName.stockCodeElem = some "005930" ∧
    dictGet (getBasicInfo domNoName) "stock_code" = none ∧
    getBasicInfo domNoName = [("stock_name", "삼성전자")] :=
  ⟨rfl, rfl, rfl⟩

/-- C3, amended: the name/code/price lookups of `_get_basic_info` share one
guarded block — a missing stock-name element aborts all of them and the
handler substitutes the title fallback; only the change-pair lookup is
independent: when the name, code and price elements are present but the
change elements are missing, those three fields are extracted and the two
change fields are merely absent. -/
theorem sdc_c3_basic_info_amended (dom : OverviewDom) :
    (dom.stockNameElem = none →
       getBasicInfo dom = [("stock_name", titleFallback dom)]) ∧
    (∀ nm cd pr, dom.stockNameElem = some nm → dom.stockCodeElem = some cd →
       dom.currentPriceElem = some pr → dom.exdayElems.length < 2 →
       dictGet (getBasicInfo dom) "stock_name" = some (pyStrip nm) ∧
       dictGet (getBasicInfo dom) "stock_code" = some (pyStrip cd) ∧
       dictGet (getBasicInfo dom) "current_price" = some (stripCommas (pyStrip pr)) ∧
       dictGet (getBasicInfo dom) "price_change" = none ∧
       dictGet (getBasicInfo dom) "change_rate" = none) := by
  constructor
  · intro h
    unfold getBasicInfo
    rw [h]
    rfl
  · intro nm cd pr hnm hcd hpr hlen
    simp only [getBasicInfo, hnm, hcd, hpr]
    rw [if_neg (by omega : ¬ 2 ≤ dom.exdayElems.length)]
    simp [dictSet, dictGet]

/-- C3 witness: the amended behavior at concrete DOMs — the name-absent DOM
collapses to the title fallback, and a DOM lacking only the change elements
keeps name, code and price. -/
theorem sdc_c3_basic_info_amended_witness :
    getBasicInfo domNoName = [("stock_name", titleFallback domNoName)] ∧
    (dictGet (getBasicInfo { domOk with exdayElems := [] }) "stock_name" =
        some "삼성전자" ∧
      dictGet (getBasicInfo { domOk with exdayElems := [] }) "price_change" = none) :=
  ⟨(sdc_c3_basic_info_amended domNoName).1 rfl,
   ((sdc_c3_basic_info_amended { domOk with exdayElems := [] }).2
        "삼성전자" "005930" "70,000" rfl rfl rfl (by decide)).1,
   ((sdc_c3_basic_info_amended { domOk with exdayElems := [] }).2
        "삼성전자" "005930" "70,000" rfl rfl rfl (by decide)).2.2.2.1⟩

/-- C4: for every DOM state, `_get_news_announcements` returns at most 20
items and `_get_investor_trends` at most 10 rows after the header, and each
returned list follows its source order — the item contents form a sublist of
the per-element parses of the DOM listing, and the stored 1-based DOM indices
are strictly increasing. -/
theorem sdc_c4_limits_and_order (nenv : NewsPageEnv) (fenv : FlowsPageEnv)
    (dir code ts fmt : String) :
    (getNewsAnnouncements nenv dir code ts fmt).1.length ≤ 20 ∧
    ((getNewsAnnouncements nenv dir code ts fmt).1.map newsTriple).Sublist
      (nenv.items.filterMap parseNewsElem) ∧
    (getNewsAnnouncements nenv dir code ts fmt).1.Pairwise
      (fun a b => a.index < b.index) ∧
    (getInvestorTrends fenv dir code ts fmt).1.length ≤ 10 ∧
    ((getInvestorTrends fenv dir code ts fmt).1.map flowCells).Sublist
      (((fenv.table.getD []).drop 1).filterMap parseFlowCellsOnly) ∧
    (getInvestorTrends fenv dir code ts fmt).1.Pairwise
      (fun a b => a.index < b.index) := by
  have hn := getNews_fst_cases nenv dir code ts fmt
  have hf := getFlows_fst_cases fenv dir code ts fmt
  refine ⟨?_, ?_, ?_, ?_, ?_, ?_⟩
  · rcases hn with h | h <;> rw [h]
    · unfold extractNewsItems
      exact le_trans (extractNewsLoop_length_le 0 _)
        (by rw [List.length_take]; exact min_le_left _ _)
    · simp
  · rcases hn with h | h <;> rw [h]
    · unfold extractNewsItems
      rw [extractNewsLoop_map_triple 0 (nenv.items.take 20)]
      exact (List.take_sublist 20 nenv.items).filterMap parseNewsElem
    · simp
  · rcases hn with h | h <;> rw [h]
    · exact extractNewsLoop_pairwise 0 _
    · simp
  · rcases hf with h | h <;> rw [h]
    · unfold extractFlowRows
      exact le_trans (extractFlowLoop_length_le 0 _)
        (by rw [List.length_take]; exact min_le_left _ _)
    · simp
  · rcases hf with h | h <;> rw [h]
    · unfold extractFlowRows
      rw [extractFlowLoop_map_cells 0 (((fenv.table.getD []).drop 1).take 10)]
      exact (List.take_sublist 10 _).filterMap parseFlowCellsOnly
    · simp
  · rcases hf with h | h <;> rw [h]
    · exact extractFlowLoop_pairwise 0 _
    · simp

/-- C5: whenever the protocol-level (CDP) capture on the news page reports
failure, the code retries with the viewport `save_screenshot` at the same
target path and still proceeds to the list extraction; and no capture
environment can abort a run — whenever folder creation, driver setup and
the overview navigation succeed, `collect_stock_data` returns a record, so
the orchestrator never handles a capture exception. -/
theorem sdc_c5_capture_fallback (env : NewsPageEnv) (dir code ts fmt : String)
    (hget : env.getOk = true) (hscroll : env.scrollOk = true)
    (hcdp : (takeFullPageScreenshotCdp env.cdp (newsFilePath dir code ts fmt)).1 = false)
    (hshot : env.viewportShotOk = true) :
    ((getNewsAnnouncements env dir code ts fmt).2 =
        [(newsFilePath dir code ts fmt, Shot.viewport)] ∧
      (getNewsAnnouncements env dir code ts fmt).1 = extractNewsItems env.items) ∧
    (∀ cfg cenv scode ts2, cenv.folderOk = true →
       setupDriver cenv.setup = SetupResult.ok →
       navigateToStock cenv.nav = true →
       (collectStockData cfg cenv scode ts2).1.isSome = true) := by
  constructor
  · have hfiles := cdpFail_no_files env.cdp (newsFilePath dir code ts fmt) hcdp
    unfold getNewsAnnouncements
    rw [if_pos ⟨hget, hscroll⟩]
    constructor
    · simp [hcdp, hshot, hfiles]
    · simp [hcdp, hshot]
  · intro cfg cenv scode ts2 hf hs hn2
    rw [collect_success_eq cfg cenv scode ts2 hf hs hn2]
    rfl

/-- C5 witness: the fallback capture and the unaffected run at a concrete
environment whose news-page CDP capture fails. -/
theorem sdc_c5_capture_fallback_witness :
    ((getNewsAnnouncements newsEnvCdpFail "screenshots/005930_2509190807" "005930"
          "2509190807" "png").2 =
        [(newsFilePath "screenshots/005930_2509190807" "005930" "2509190807" "png",
          Shot.viewport)] ∧
      (getNewsAnnouncements newsEnvCdpFail "screenshots/005930_2509190807" "005930"
          "2509190807" "png").1 = extractNewsItems newsEnvCdpFail.items) ∧
    (collectStockData cfgD envNewsCdpFail "005930" "2509190807").1.isSome = true :=
  ⟨(sdc_c5_capture_fallback newsEnvCdpFail "screenshots/005930_2509190807" "005930"
        "2509190807" "png" rfl rfl rfl rfl).1,
   (sdc_c5_capture_fallback newsEnvCdpFail "screenshots/005930_2509190807" "005930"
        "2509190807" "png" rfl rfl rfl rfl).2 cfgD envNewsCdpFail "005930" "2509190807"
     rfl rfl rfl⟩

/-- C6: when the nested-frame lookup on the company-analysis page fails, the
stage records a plain full-page capture of the host page under
`fallback_screenshot`, the run still returns a record, and the news, flows
and advanced-chart stages are all entered afterwards. -/
theorem sdc_c6_analysis_fallback_run_continues (cfg : ScreenshotConfig)
    (env : CollectEnv) (code ts : String)
    (hf : env.folderOk = true) (hs : setupDriver env.setup = SetupResult.ok)
    (hn : navigateToStock env.nav = true)
    (hget : env.analysis.getOk = true) (hifr : env.analysis.iframeFound = false)
    (hh : env.analysis.bodyScrollHeight.isSome = true)
    (hw : env.analysis.winSizeOk = true) (hp : env.analysis.plainShotOk = true)
    (hr : env.analysis.winRestoreOk = true) :
    (captureCompanyAnalysis env.analysis (runDirOf cfg code ts) code ts cfg.format).1 =
      [("fallback_screenshot",
        analysisFallbackPath (runDirOf cfg code ts) code ts cfg.format)] ∧
    (collectStockData cfg env code ts).1.isSome = true ∧
    Step.newsAnnouncements ∈ (collectStockData cfg env code ts).2.steps ∧
    Step.investorTrends ∈ (collectStockData cfg env code ts).2.steps ∧
    Step.advancedCharts ∈ (collectStockData cfg env code ts).2.steps := by
  obtain ⟨v, hv⟩ := Option.isSome_iff_exists.mp hh
  refine ⟨?_, ?_, ?_, ?_, ?_⟩
  · simp [captureCompanyAnalysis, analysisFallbackCapture, hget, hifr, hv, hw, hp, hr]
  · rw [collect_success_eq cfg env code ts hf hs hn]; rfl
  · rw [collect_success_eq cfg env code ts hf hs hn]; simp
  · rw [collect_success_eq cfg env code ts hf hs hn]; simp
  · rw [collect_success_eq cfg env code ts hf hs hn]; simp

/-- C6 witness: the fallback capture and continued run at the concrete
environment whose iframe lookup fails. -/
theorem sdc_c6_analysis_fallback_run_continues_witness :
    (captureCompanyAnalysis envNoIframe.analysis
        (runDirOf cfgD "005930" "2509190807") "005930" "2509190807" cfgD.format).1 =
      [("fallback_screenshot",
        analysisFallbackPath (runDirOf cfgD "005930" "2509190807") "005930"
          "2509190807" cfgD.format)] ∧
    (collectStockData cfgD envNoIframe "005930" "2509190807").1.isSome = true ∧
    Step.newsAnnouncements ∈ (collectStockData cfgD envNoIframe "005930" "2509190807").2.steps ∧
    Step.investorTrends ∈ (collectStockData cfgD envNoIframe "005930" "2509190807").2.steps ∧
    Step.advancedCharts ∈ (collectStockData cfgD envNoIframe "005930" "2509190807").2.steps :=
  sdc_c6_analysis_fallback_run_continues cfgD envNoIframe "005930" "2509190807"
    rfl rfl rfl rfl rfl rfl rfl rfl rfl

/-- C7: the flow-row guard keeps exactly the rows with at least 6 cells —
shorter rows yield nothing, every kept row yields the date plus the per-actor
figures of its first six cells, and every returned record comes from one of
the first ten post-header table rows satisfying the guard. -/
theorem sdc_c7_flow_rows (fenv : FlowsPageEnv) (dir code ts fmt : String) :
    (∀ idx cells, cells.length < 6 → parseFlowRow idx cells = none) ∧
    (∀ idx cells r, parseFlowRow idx cells = some r →
       6 ≤ cells.length ∧
       r.date = pyStrip (cells.getD 0 "") ∧
       r.foreign_buy = pyStrip (cells.getD 1 "") ∧
       r.foreign_sell = pyStrip (cells.getD 2 "") ∧
       r.institution_buy = pyStrip (cells.getD 3 "") ∧
       r.institution_sell = pyStrip (cells.getD 4 "") ∧
       r.individual_volume = pyStrip (cells.getD 5 "")) ∧
    ((getInvestorTrends fenv dir code ts fmt).1 =
        extractFlowRows (fenv.table.getD []) ∨
      (getInvestorTrends fenv dir code ts fmt).1 = []) ∧
    (∀ r, r ∈ (getInvestorTrends fenv dir code ts fmt).1 →
       ∃ cells, cells ∈ ((fenv.table.getD []).drop 1).take 10 ∧
         6 ≤ cells.length ∧ r.date = pyStrip (cells.getD 0 "")) := by
  have hinv : ∀ (idx : Nat) (cells : List String) (r : FlowRec),
      parseFlowRow idx cells = some r →
      6 ≤ cells.length ∧
      r.date = pyStrip (cells.getD 0 "") ∧
      r.foreign_buy = pyStrip (cells.getD 1 "") ∧
      r.foreign_sell = pyStrip (cells.getD 2 "") ∧
      r.institution_buy = pyStrip (cells.getD 3 "") ∧
      r.institution_sell = pyStrip (cells.getD 4 "") ∧
      r.individual_volume = pyStrip (cells.getD 5 "") := by
    intro idx cells r hr
    unfold parseFlowRow at hr
    by_cases h6 : 6 ≤ cells.length
    · rw [if_pos h6] at hr
      simp only [Option.some.injEq] at hr
      subst hr
      exact ⟨h6, rfl, rfl, rfl, rfl, rfl, rfl⟩
    · rw [if_neg h6] at hr
      exact Option.noConfusion hr
  refine ⟨?_, hinv, getFlows_fst_cases fenv dir code ts fmt, ?_⟩
  · intro idx cells hlen
    unfold parseFlowRow
    rw [if_neg (by omega)]
  · intro r hrmem
    rcases getFlows_fst_cases fenv dir code ts fmt with h | h
    · rw [h] at hrmem
      unfold extractFlowRows at hrmem
      obtain ⟨cells, hc, m, hm⟩ := extractFlowLoop_mem 0 _ r hrmem
      obtain ⟨h6, hd, _⟩ := hinv m cells r hm
      exact ⟨cells, hc, h6, hd⟩
    · rw [h] at hrmem
      exact absurd hrmem (List.not_mem_nil r)

/-- C7 witness: the guard at concrete rows — a one-cell row is discarded and
a six-cell row is well-formed. -/
theorem sdc_c7_flow_rows_witness :
    parseFlowRow 1 ["2024.01.04"] = none ∧
    6 ≤ (["2024.01.05", "1,000", "500", "300", "200", "800"] : List String).length :=
  ⟨(sdc_c7_flow_rows flowsEnvOk "screenshots/005930_2509190807" "005930" "2509190807"
        "png").1 1 ["2024.01.04"] (by decide),
   ((sdc_c7_flow_rows flowsEnvOk "screenshots/005930_2509190807" "005930" "2509190807"
        "png").2.1 0 ["2024.01.05", "1,000", "500", "300", "200", "800"]
      { date := "2024.01.05", foreign_buy := "1,000", foreign_sell := "500",
        institution_buy := "300", institution_sell := "200",
        individual_volume := "800", index := 1 } rfl).1⟩

/-- C8: every record a `collect_stock_data` call returns carries exactly the
input stock code in its `stock_code` field. -/
theorem sdc_c8_stock_code_identity (cfg : ScreenshotConfig) (env : CollectEnv)
    (code ts : String) (d : StockData)
    (h : (collectStockData cfg env code ts).1 = some d) :
    d.stock_code = code :=
  (collect_some_fields cfg env code ts d h).1

/-- C8 witness: the identity at a concrete successful run. -/
theorem sdc_c8_stock_code_identity_witness :
    ((collectStockData cfgD envOk "005930" "2509190807").1.getD default).stock_code =
      "005930" :=
  sdc_c8_stock_code_identity cfgD envOk "005930" "2509190807"
    ((collectStockData cfgD envOk "005930" "2509190807").1.getD default) rfl

/-- C9: calling `save_data_to_json` with no explicit filepath raises
`AttributeError` instead of deriving a path and writing the record, because
it reads `self.screenshot_dir` and neither `__init__` nor any other method
of the class ever assigns that attribute — contradicting the method's own
docstring (auto-generate the path when it is `None` and return it). -/
theorem sdc_c9_save_attribute_error (d : StockData) (ts dirParent : String)
    (writeOk : Bool) :
    saveDataToJson initAttrNames d none ts dirParent writeOk =
      Except.error PyErr.attributeError ∧
    "screenshot_dir" ∉ initAttrNames ∧
    "screenshot_dir" ∉ methodAssignedAttrNames :=
  ⟨rfl, by decide, by decide⟩

/-- C10: every record a successful run returns has `related_themes`
hard-coded to the empty list, the orchestrator never enters a related-themes
stage even though the `_get_related_themes` extractor exists, and that
extractor deduplicates by text (its output never holds duplicates). -/
theorem sdc_c10_related_themes_empty (cfg : ScreenshotConfig) (env : CollectEnv)
    (code ts : String) :
    (∀ d, (collectStockData cfg env code ts).1 = some d → d.related_themes = []) ∧
    Step.relatedThemes ∉ (collectStockData cfg env code ts).2.steps ∧
    (∀ dom : ThemesDom, (getRelatedThemes dom).Nodup) := by
  refine ⟨fun d h => (collect_some_fields cfg env code ts d h).2,
          collect_no_theme_step cfg env code ts, ?_⟩
  intro dom
  unfold getRelatedThemes
  cases hts : dom.themeSection with
  | none => simp
  | some links => exact themesFold_nodup links [] List.nodup_nil

/-- C10 witness: the empty theme list and the absent stage at a concrete
successful run. -/
theorem sdc_c10_related_themes_empty_witness :
    ((collectStockData cfgD envOk "005930" "2509190807").1.getD default).related_themes =
      ([] : List String) ∧
    Step.relatedThemes ∉ (collectStockData cfgD envOk "005930" "2509190807").2.steps :=
  ⟨(sdc_c10_related_themes_empty cfgD envOk "005930" "2509190807").1
      ((collectStockData cfgD envOk "005930" "2509190807").1.getD default) rfl,
   (sdc_c10_related_themes_empty cfgD envOk "005930" "2509190807").2.1⟩

end MagicSplit
